import Mathlib

/-!
Verification of the declarative test-harness in `src/test/test.py` against its
natural-language specification.

Shallow embedding conventions:
* Filesystem side effects on a single path (`cleandir`, `mkdir`) are modelled as
  a state machine on `FSNode` (absent / regular file / directory with entries),
  returning the list of emitted events (warnings, removals, creation) together
  with the final state of the path.
* The subprocess invocation inside `TestCase.run` is an external oracle: its
  exit code and captured streams are a `ProcResult` parameter, and the entries
  the program left in the shared scratch directory (`WORK_DIR`) are a
  `List String` parameter.
* TOML values relevant to `collect_options` are booleans or strings
  (the source annotates `contents: dict[str, str | bool]`); Python truthiness
  of these is `TomlVal.truthy`.  Dictionaries are association lists looked up
  by first match (TOML keys are unique within a table).
* Paths are strings relative to the script directory: `SUITES_DIR` is
  `suites`, `TEST_DIR` is `inputs`; `Path.__truediv__` is `joinPath` and
  `Path.stem` is `pathStem`.
* Logging: only the per-test pass/fail lines (`test_pass` / `test_fail`) and
  the suite-level lines (`suite_fail_msg` / `suite_fail` / `suite_pass`)
  matter to the claims; they are recorded as `LogLine` / `SuiteLog` values in
  emission order.  Logger plumbing and colorization are presentation-only and
  not modelled.
-/

/-- A TOML value as typed in the source: `str | bool`. -/
inductive TomlVal where
  | bool (b : Bool)
  | str (s : String)
deriving DecidableEq, Repr

/-- Python truthiness of a `str | bool` value: `False` and `""` are falsy. -/
def TomlVal.truthy : TomlVal → Bool
  | .bool b => b
  | .str s => !(s == "")

/-- The token a value contributes when appended to the option list
(Python `str()` rendering for booleans, identity for strings). -/
def TomlVal.token : TomlVal → String
  | .bool b => if b then "True" else "False"
  | .str s => s

/-- `"k" in contents` for a TOML table modelled as an association list. -/
def hasKey (contents : List (String × TomlVal)) (k : String) : Bool :=
  contents.any (fun p => p.1 == k)

/-- `contents["k"]` (first match; the default is never reached on tables where
the key is present, which is the only way the source subscripts). -/
def getVal (contents : List (String × TomlVal)) (k : String) : TomlVal :=
  match contents.find? (fun p => p.1 == k) with
  | some p => p.2
  | none => TomlVal.str ""

/-- `collect_options` from `src/test/test.py`: start from an empty list; if
`"option"` is present and truthy append `"--option"`; if `"parameter"` is
present append `"--parameter"` and its value. -/
def collect_options (contents : List (String × TomlVal)) : List String :=
  let options : List String := []
  let options :=
    if hasKey contents "option" && (getVal contents "option").truthy then
      options ++ ["--option"]
    else options
  let options :=
    if hasKey contents "parameter" then
      options ++ ["--parameter", (getVal contents "parameter").token]
    else options
  options

/-- State of a single filesystem path. -/
inductive FSNode where
  | absent
  | file
  | dir (entries : List String)
deriving DecidableEq, Repr

/-- Events emitted by the workspace helpers, in order. -/
inductive FSEvent where
  | warn
  | removeFile
  | rmtree
  | makeDir
deriving DecidableEq, Repr

/-- `cleandir(dir, quiet)` from `src/test/test.py`: if the path is a file,
warn (unless quiet) and `os.remove` it; else if a directory, warn (unless
quiet) and `shutil.rmtree` it; then `os.mkdir` it. -/
def cleandir (d : FSNode) (quiet : Bool) : List FSEvent × FSNode :=
  match d with
  | FSNode.file =>
      ((if quiet then [] else [FSEvent.warn]) ++ [FSEvent.removeFile, FSEvent.makeDir],
       FSNode.dir [])
  | FSNode.dir _ =>
      ((if quiet then [] else [FSEvent.warn]) ++ [FSEvent.rmtree, FSEvent.makeDir],
       FSNode.dir [])
  | FSNode.absent => ([FSEvent.makeDir], FSNode.dir [])

/-- `mkdir(dir, quiet)` from `src/test/test.py`: if the path is a file, warn
(unless quiet) and `os.remove` it; then `os.mkdir` only if the path is not
already a directory. -/
def mkdir (d : FSNode) (quiet : Bool) : List FSEvent × FSNode :=
  match d with
  | FSNode.file =>
      ((if quiet then [] else [FSEvent.warn]) ++ [FSEvent.removeFile, FSEvent.makeDir],
       FSNode.dir [])
  | FSNode.dir es => ([], FSNode.dir es)
  | FSNode.absent => ([FSEvent.makeDir], FSNode.dir [])

/-- `Path.__truediv__`. -/
def joinPath (a b : String) : String := a ++ "/" ++ b

/-- `Path.name`: the component after the last slash. -/
def basename (s : String) : String :=
  String.mk ((s.data.reverse.takeWhile (fun c => c ≠ '/')).reverse)

/-- `Path.stem`: the basename without its last suffix; a dot that is the first
or last character of the name does not start a suffix (Python semantics). -/
def pathStem (s : String) : String :=
  let b := basename s
  let rev := b.data.reverse
  let after := rev.dropWhile (fun c => c ≠ '.')
  match after with
  | [] => b
  | _ :: rest =>
      if rest.isEmpty || after.length == rev.length then b
      else String.mk rest.reverse

/-- `SUITES_DIR / f"{name}.toml"`, relative to the script directory. -/
def configFilePath (suite_name : String) : String :=
  "suites/" ++ suite_name ++ ".toml"

/-- `TEST_DIR`, relative to the script directory. -/
def TEST_DIR_path : String := "inputs"

/-- One subprocess outcome: exit code plus captured streams. -/
structure ProcResult where
  returncode : Int
  stdout : String
  stderr : String
deriving DecidableEq, Repr

/-- A `TestCase` object's fields (the directory wiping and logger wiring done
by `__init__` touch no state the claims mention). -/
structure TestCase where
  status : Bool
  suite_name : String
  test_name : String
  input : String
  output : String
  options : List String
deriving DecidableEq, Repr

/-- Files written into the per-test result directory by `TestCase.run`. -/
inductive Artifact where
  | stdoutFile (program content : String)
  | stderrFile (program content : String)
  | copiedInput (path : String)
  | copiedOutput (path : String)
deriving DecidableEq, Repr

/-- Copy-back artifacts, as opposed to captured-stream artifacts. -/
def isCopyArtifact : Artifact → Bool
  | .copiedInput _ => true
  | .copiedOutput _ => true
  | _ => false

/-- Per-test log lines emitted by `test_pass` / `test_fail`. -/
inductive LogLine where
  | passLine (test msg : String)
  | failLine (test msg : String)
deriving DecidableEq, Repr

/-- The diagnostic `test_fail` receives on a nonzero exit code:
`f"{program} returned with code {proc.returncode}"`. -/
def failMsg (program : String) (code : Int) : String :=
  program ++ " returned with code " ++ toString code

/-- Everything `TestCase.run` produces: the updated object, the artifacts
written to the test results directory, the log lines, and the contents of the
shared scratch directory at the moment `run` returns. -/
structure RunResult where
  tc : TestCase
  artifacts : List Artifact
  logs : List LogLine
  scratch : List String
deriving DecidableEq, Repr

/-- Whether a directory entry name is hidden in the sense of `glob`: the
pattern `*` does not match names beginning with a dot, so such entries
survive the drain loop.  (Real directory entries are never empty-named; an
empty name is treated as a match.) -/
def hiddenEntry (name : String) : Bool :=
  match name.data with
  | [] => false
  | c :: _ => c == '.'

/-- `TestCase.run(program, copyback)` from `src/test/test.py`.
`proc` is the subprocess outcome and `scratchAfterProc` the entries found in
`WORK_DIR` once the subprocess has exited.  Control flow is the source's:
write non-empty streams to artifact files; on nonzero exit code call
`test_fail` and return (the scratch directory is NOT drained on this path);
otherwise log a pass line if `status` still holds, copy back input and output
when requested, and drain the scratch directory by removing every
`glob(f"{WORK_DIR}/*")` match — which leaves dot-named entries in place. -/
def TestCase.run (tc : TestCase) (program : String) (copyback : Bool)
    (proc : ProcResult) (scratchAfterProc : List String) : RunResult :=
  let streamArtifacts : List Artifact :=
    (if proc.stdout == "" then [] else [Artifact.stdoutFile program proc.stdout]) ++
      (if proc.stderr == "" then [] else [Artifact.stderrFile program proc.stderr])
  if proc.returncode ≠ 0 then
    { tc := { tc with status := false }
      artifacts := streamArtifacts
      logs := [LogLine.failLine tc.test_name (failMsg program proc.returncode)]
      scratch := scratchAfterProc }
  else
    { tc := tc
      artifacts := streamArtifacts ++
        (if copyback then [Artifact.copiedInput tc.input, Artifact.copiedOutput tc.output]
         else [])
      logs := if tc.status then [LogLine.passLine tc.test_name ""] else []
      scratch := scratchAfterProc.filter hiddenEntry }

/-- Suite-level log lines (`suite_fail_msg` emits an error line and then the
FAIL summary; `suite_fail` / `suite_pass` emit only the summary). -/
inductive SuiteLog where
  | errorMsg (msg : String)
  | suiteFailLine (suite : String)
  | suitePassLine (suite : String)
deriving DecidableEq, Repr

/-- `suite_fail_msg(msg)`: log the error, then the FAIL summary line.
Note: it does not touch `self.status`. -/
def suiteFailMsgLogs (suite msg : String) : List SuiteLog :=
  [SuiteLog.errorMsg msg, SuiteLog.suiteFailLine suite]

/-- ASCII single quote, kept out of string literals. -/
def sglQuote : String := String.mk [Char.ofNat 39]

/-- ASCII backtick, kept out of string literals. -/
def backQuote : String := String.mk [Char.ofNat 96]

/-- `f"Suite configuration file '{config_file}' does not exist"`. -/
def configMissingMsg (suite_name : String) : String :=
  "Suite configuration file " ++ sglQuote ++ configFilePath suite_name ++ sglQuote ++ " does not exist"

/-- `f"Suite configuration file '{config_file}' invalid. Testcase `{testcase}` defines no input."`. -/
def invalidTestcaseMsg (suite_name testcase : String) : String :=
  "Suite configuration file " ++ sglQuote ++ configFilePath suite_name ++ sglQuote ++
    " invalid. Testcase " ++ backQuote ++ testcase ++ backQuote ++ " defines no input."

/-- `f"Program `{program}` is not a valid executable."`. -/
def badProgramMsg (program : String) : String :=
  "Program " ++ backQuote ++ program ++ backQuote ++ " is not a valid executable."

/-- The configuration resource for a suite: either `suites/<name>.toml` does
not exist, or it parses to an optional `[options]` table and an ordered
`[test.*]` table.  Of each test entry only the `input` field is consulted by
the loader, so an entry is its optional `input` value. -/
inductive ConfigSource where
  | missing
  | present (hasOptionsBlock : Bool) (optionsBlock : List (String × TomlVal))
      (testcases : List (String × Option String))
deriving DecidableEq, Repr

/-- Construction of one `TestCase` inside `configure_tests`:
`input = TEST_DIR / content["input"]`, `output = Path(input.stem + ".out")`,
`status` initialised to `True` by `TestCase.__init__`. -/
def mkTestCase (suite_name test_name inputField : String) (options : List String) : TestCase :=
  { status := true
    suite_name := suite_name
    test_name := test_name
    input := joinPath TEST_DIR_path inputField
    output := pathStem (joinPath TEST_DIR_path inputField) ++ ".out"
    options := options }

/-- The `for testcase,content in testcases.items()` loop of `configure_tests`:
append a `TestCase` per entry; on the first entry with no `input` field, log
via `suite_fail_msg` and return, keeping the test cases appended so far. -/
def configureLoop (suite_name : String) (options : List String) :
    List (String × Option String) → List TestCase × List SuiteLog
  | [] => ([], [])
  | (tname, none) :: _ =>
      ([], suiteFailMsgLogs suite_name (invalidTestcaseMsg suite_name tname))
  | (tname, some inputField) :: rest =>
      let res := configureLoop suite_name options rest
      (mkTestCase suite_name tname inputField options :: res.1, res.2)

/-- `configure_tests` from `src/test/test.py`: if the configuration file does
not exist, `suite_fail_msg` and return with no tests (note: `self.status`
is left `True`); otherwise compute shared options from the `[options]` table
when present and run the test-entry loop.  Returns (tests, options, logs). -/
def configure_tests (suite_name : String) (cfg : ConfigSource) :
    List TestCase × List String × List SuiteLog :=
  match cfg with
  | ConfigSource.missing =>
      ([], [], suiteFailMsgLogs suite_name (configMissingMsg suite_name))
  | ConfigSource.present hasOpts optsBlock testcases =>
      let options := if hasOpts then collect_options optsBlock else []
      let res := configureLoop suite_name options testcases
      (res.1, options, res.2)

/-- A `TestSuite` object's fields.  `configLogs` records what construction
logged (the `clean()` directory wiping touches no state the claims mention). -/
structure TestSuite where
  status : Bool
  suite_name : String
  tests : List TestCase
  options : List String
  configLogs : List SuiteLog
deriving DecidableEq, Repr

/-- `TestSuite.__init__`: set `status = True`, then `configure_tests`.
`status` is `True` afterwards even when configuration failed — nothing in
`configure_tests` assigns it. -/
def TestSuite.init (name : String) (cfg : ConfigSource) : TestSuite :=
  let c := configure_tests name cfg
  { status := true
    suite_name := name
    tests := c.1
    options := c.2.1
    configLogs := c.2.2 }

/-- The `for test in self.tests` loop of `TestSuite.run`: run each test in
order, folding `self.status = test.status and self.status`.  `env i` supplies
the subprocess outcome and post-subprocess scratch contents of the `i`-th
executed test.  Returns the final status and the updated test objects in
order. -/
def runTests (program : String) (copyback : Bool)
    (env : Nat → ProcResult × List String) :
    List TestCase → Nat → Bool → Bool × List TestCase
  | [], _, status => (status, [])
  | tc :: rest, i, status =>
      let r := tc.run program copyback (env i).1 (env i).2
      let res := runTests program copyback env rest (i + 1) (r.tc.status && status)
      (res.1, r.tc :: res.2)

/-- `TestSuite.run(program, copyback)` from `src/test/test.py`: if the target
program is not a file, `suite_fail_msg` and return; if `status` is already
false, return silently; otherwise run every test in order folding the status,
then emit the suite FAIL or PASS summary. -/
def TestSuite.run (ts : TestSuite) (program : String) (programIsFile : Bool)
    (copyback : Bool) (env : Nat → ProcResult × List String) :
    TestSuite × List SuiteLog :=
  if !programIsFile then
    (ts, suiteFailMsgLogs ts.suite_name (badProgramMsg program))
  else if !ts.status then
    (ts, [])
  else
    let res := runTests program copyback env ts.tests 0 ts.status
    ({ ts with status := res.1, tests := res.2 },
      if !res.1 then [SuiteLog.suiteFailLine ts.suite_name]
      else [SuiteLog.suitePassLine ts.suite_name])

/-- A concrete test case used to instantiate general theorems. -/
def tcA : TestCase :=
  { status := true
    suite_name := "s"
    test_name := "t"
    input := "inputs/a.txt"
    output := "a.out"
    options := [] }

/-- A subprocess outcome with exit code 0 and empty streams. -/
def procPass : ProcResult := { returncode := 0, stdout := "", stderr := "" }

/-- A subprocess outcome with exit code 1 and empty streams. -/
def procFail : ProcResult := { returncode := 1, stdout := "", stderr := "" }

/-- An oracle in which every subprocess exits 0 leaving an empty scratch. -/
def envPass : Nat → ProcResult × List String := fun _ => (procPass, [])

/-- An oracle in which the first subprocess exits 1 and the rest exit 0. -/
def envFailFirst : Nat → ProcResult × List String :=
  fun i => if i = 0 then (procFail, []) else (procPass, [])

/-- A configuration whose second test entry has no `input` field. -/
def cfgPartial : ConfigSource :=
  ConfigSource.present false [] [("t1", some "a.txt"), ("t2", none)]

/-- A well-formed configuration with a single test entry. -/
def cfgOne : ConfigSource :=
  ConfigSource.present false [] [("t1", some "a.txt")]

theorem runTests_fst_eq (program : String) (copyback : Bool)
    (env : Nat → ProcResult × List String) (tests : List TestCase) (i : Nat) (s : Bool) :
    (runTests program copyback env tests i s).1 =
      (s && (runTests program copyback env tests i s).2.all TestCase.status) := by
  induction tests generalizing i s with
  | nil => simp [runTests]
  | cons tc rest ih =>
      simp only [runTests, List.all_cons]
      rw [ih]
      cases (tc.run program copyback (env i).1 (env i).2).tc.status <;> cases s <;> simp

theorem runTests_getElem2 (program : String) (copyback : Bool)
    (env : Nat → ProcResult × List String) (tests : List TestCase) (i : Nat) (s : Bool)
    (j : Nat) :
    ((runTests program copyback env tests i s).2[j]?) =
      (tests[j]?).map
        (fun tc => (tc.run program copyback (env (i + j)).1 (env (i + j)).2).tc) := by
  induction tests generalizing i s j with
  | nil => simp [runTests]
  | cons tc rest ih =>
      cases j with
      | zero => simp [runTests]
      | succ j =>
          simp only [runTests, List.getElem?_cons_succ]
          rw [ih]
          have hn : i + 1 + j = i + (j + 1) := by omega
          rw [hn]

theorem runTests_append_fst (program : String) (copyback : Bool)
    (env : Nat → ProcResult × List String) (l1 l2 : List TestCase) (i : Nat) (s : Bool) :
    (runTests program copyback env (l1 ++ l2) i s).1 =
      (runTests program copyback env l2 (i + l1.length)
        (runTests program copyback env l1 i s).1).1 := by
  induction l1 generalizing i s with
  | nil => simp [runTests]
  | cons tc rest ih =>
      simp only [List.cons_append, runTests, List.length_cons, List.append_eq]
      rw [ih]
      have hn : i + 1 + rest.length = i + (rest.length + 1) := by omega
      rw [hn]

/-- Claim C7: the shared option list is computed by a fixed mapping — the
`option` key present with boolean value `true` contributes the single token
`--option`; the `parameter` key, if present, contributes `--parameter`
followed by its value token; every other key is ignored (the result depends
only on the presence and values of those two keys). -/
theorem collect_options_fixed_mapping (contents : List (String × TomlVal)) :
    (hasKey contents "option" = true → getVal contents "option" = TomlVal.bool true →
      collect_options contents =
        "--option" ::
          (if hasKey contents "parameter" then
            ["--parameter", (getVal contents "parameter").token]
          else [])) ∧
    (hasKey contents "parameter" = true →
      collect_options contents =
        (if hasKey contents "option" && (getVal contents "option").truthy then
          ["--option"]
        else []) ++ ["--parameter", (getVal contents "parameter").token]) ∧
    (∀ contents2 : List (String × TomlVal),
      hasKey contents2 "option" = hasKey contents "option" →
      getVal contents2 "option" = getVal contents "option" →
      hasKey contents2 "parameter" = hasKey contents "parameter" →
      getVal contents2 "parameter" = getVal contents "parameter" →
      collect_options contents2 = collect_options contents) := by
  unfold collect_options
  refine ⟨?_, ?_, ?_⟩
  · intro h1 h2
    simp only [h1, h2, TomlVal.truthy, Bool.true_and, if_true, List.nil_append]
    split <;> rfl
  · intro h
    simp [h]
  · intro c2 h1 h2 h3 h4
    simp [h1, h2, h3, h4]

/-- Witness for C7 at a concrete options table holding an unknown key. -/
theorem collect_options_fixed_mapping_witness :
    collect_options
        [("option", TomlVal.bool true), ("extra", TomlVal.str "z"),
          ("parameter", TomlVal.str "5")] =
      "--option" ::
        (if hasKey
            [("option", TomlVal.bool true), ("extra", TomlVal.str "z"),
              ("parameter", TomlVal.str "5")] "parameter" then
          ["--parameter",
            (getVal
              [("option", TomlVal.bool true), ("extra", TomlVal.str "z"),
                ("parameter", TomlVal.str "5")] "parameter").token]
        else []) :=
  (collect_options_fixed_mapping _).1 (by decide) (by decide)

/-- Claim C8: for every starting state of the path (absent, file, directory),
`cleandir` leaves an empty directory; and when something existed and `quiet`
is false, a warning is emitted before the removal event. -/
theorem cleandir_resets_and_warns (d : FSNode) (quiet : Bool) :
    (cleandir d quiet).2 = FSNode.dir [] ∧
    (d ≠ FSNode.absent → quiet = false →
      ∃ r, (cleandir d quiet).1 = [FSEvent.warn, r, FSEvent.makeDir] ∧
        (r = FSEvent.removeFile ∨ r = FSEvent.rmtree)) := by
  cases d with
  | absent => exact ⟨rfl, fun h _ => absurd rfl h⟩
  | file =>
      cases quiet with
      | false => exact ⟨rfl, fun _ _ => ⟨FSEvent.removeFile, rfl, Or.inl rfl⟩⟩
      | true => exact ⟨rfl, fun _ hq => nomatch hq⟩
  | dir es =>
      cases quiet with
      | false => exact ⟨rfl, fun _ _ => ⟨FSEvent.rmtree, rfl, Or.inr rfl⟩⟩
      | true => exact ⟨rfl, fun _ hq => nomatch hq⟩

/-- Witness for C8 at an existing directory with `quiet = false`. -/
theorem cleandir_resets_and_warns_witness :
    (cleandir (FSNode.dir ["old"]) false).2 = FSNode.dir [] ∧
    ∃ r, (cleandir (FSNode.dir ["old"]) false).1 = [FSEvent.warn, r, FSEvent.makeDir] ∧
      (r = FSEvent.removeFile ∨ r = FSEvent.rmtree) :=
  ⟨(cleandir_resets_and_warns (FSNode.dir ["old"]) false).1,
    (cleandir_resets_and_warns (FSNode.dir ["old"]) false).2 (by decide) rfl⟩

/-- Claim C9: `mkdir` leaves an existing directory and all of its entries
unchanged, replaces a regular file by an empty directory, and creates an
empty directory when the path is absent. -/
theorem mkdir_preserves_dir_replaces_file (d : FSNode) (quiet : Bool) :
    (∀ es, d = FSNode.dir es → mkdir d quiet = ([], FSNode.dir es)) ∧
    (d = FSNode.file → (mkdir d quiet).2 = FSNode.dir []) ∧
    (d = FSNode.absent → mkdir d quiet = ([FSEvent.makeDir], FSNode.dir [])) := by
  cases d <;> cases quiet <;> simp [mkdir]

/-- Witness for C9 at an existing directory with one entry. -/
theorem mkdir_preserves_dir_replaces_file_witness :
    mkdir (FSNode.dir ["kept.txt"]) false = ([], FSNode.dir ["kept.txt"]) :=
  (mkdir_preserves_dir_replaces_file (FSNode.dir ["kept.txt"]) false).1 ["kept.txt"] rfl

/-- Claim C5: for every test-case execution, the recorded status is pass
exactly when the exit code is 0; a nonzero exit code records fail together
with a diagnostic naming the program and the code; and the status is
independent of the captured stream contents. -/
theorem testcase_status_iff_exit_zero (tc : TestCase) (program : String) (copyback : Bool)
    (proc : ProcResult) (scr : List String) (h : tc.status = true) :
    ((tc.run program copyback proc scr).tc.status = decide (proc.returncode = 0)) ∧
    (proc.returncode ≠ 0 →
      (tc.run program copyback proc scr).logs =
        [LogLine.failLine tc.test_name (failMsg program proc.returncode)]) ∧
    (∀ out err : String,
      (tc.run program copyback { proc with stdout := out, stderr := err } scr).tc.status =
        (tc.run program copyback proc scr).tc.status) := by
  by_cases h0 : proc.returncode = 0 <;> simp [TestCase.run, h0, h]

/-- Witness for C5 at a concrete failing execution (exit code 1). -/
theorem testcase_status_iff_exit_zero_witness :
    (tcA.run "prog" false procFail []).tc.status = decide (procFail.returncode = 0) :=
  (testcase_status_iff_exit_zero tcA "prog" false procFail [] rfl).1

/-- Claim C6: with copy-back enabled and a passing exit code, exactly the
original input file and the produced scratch output are copied into the
per-test result directory; a failing test, or a run without copy-back,
copies nothing back. -/
theorem copyback_exactly_input_output (tc : TestCase) (program : String)
    (proc : ProcResult) (scr : List String) :
    (proc.returncode = 0 →
      (tc.run program true proc scr).artifacts.filter isCopyArtifact =
        [Artifact.copiedInput tc.input, Artifact.copiedOutput tc.output]) ∧
    (∀ copyback, proc.returncode ≠ 0 →
      (tc.run program copyback proc scr).artifacts.filter isCopyArtifact = []) ∧
    ((tc.run program false proc scr).artifacts.filter isCopyArtifact = []) := by
  by_cases h0 : proc.returncode = 0 <;>
    by_cases hso : proc.stdout = "" <;>
    by_cases hse : proc.stderr = "" <;>
    simp [TestCase.run, h0, hso, hse, isCopyArtifact, List.filter_append, List.filter]

/-- Witness for C6 at a concrete passing execution with copy-back. -/
theorem copyback_exactly_input_output_witness :
    (tcA.run "prog" true procPass []).artifacts.filter isCopyArtifact =
      [Artifact.copiedInput tcA.input, Artifact.copiedOutput tcA.output] :=
  (copyback_exactly_input_output tcA "prog" procPass []).1 rfl

/-- Claim C3 counterexample: on a nonzero exit code `TestCase.run` returns
early and the shared scratch directory keeps its entries, so it is not
drained regardless of pass/fail as the claim states. -/
theorem scratch_undrained_on_failure_cex :
    (tcA.run "prog" false procFail ["leftover.out"]).scratch ≠ [] := by decide

/-- Claim C3 (amended): when the exit code is zero, the drain loop removes
from the scratch directory exactly the entries `glob("*")` matches, so what
remains at return are precisely the dot-named (hidden) entries; on a nonzero
exit code `run` returns early and leaves the scratch contents untouched. -/
theorem scratch_drain_glob_on_exit_zero (tc : TestCase) (program : String) (copyback : Bool)
    (proc : ProcResult) (scr : List String) :
    (proc.returncode = 0 →
      (tc.run program copyback proc scr).scratch = scr.filter hiddenEntry) ∧
    (proc.returncode = 0 →
      ∀ f ∈ (tc.run program copyback proc scr).scratch, hiddenEntry f = true) ∧
    (proc.returncode ≠ 0 → (tc.run program copyback proc scr).scratch = scr) := by
  by_cases h0 : proc.returncode = 0 <;> simp [TestCase.run, h0]

/-- Witness for the amended C3 at a concrete passing execution whose scratch
holds one glob match and one hidden entry. -/
theorem scratch_drain_glob_on_exit_zero_witness :
    (tcA.run "prog" true procPass ["a.out", ".hidden"]).scratch =
      (["a.out", ".hidden"].filter hiddenEntry) :=
  (scratch_drain_glob_on_exit_zero tcA "prog" true procPass ["a.out", ".hidden"]).1 rfl

/-- Claim C1 (code bug, evaluated at the failing input): with a missing
configuration file the suite constructs zero tests as claimed, but — because
`suite_fail_msg` never assigns `self.status` — the suite's status stays
`True` and `run` against an existing program emits a PASS summary, even
though configuration logged a FAIL summary for the same suite. -/
theorem missing_config_suite_status_true :
    (TestSuite.init "s" ConfigSource.missing).tests = [] ∧
    (TestSuite.init "s" ConfigSource.missing).configLogs =
      [SuiteLog.errorMsg (configMissingMsg "s"), SuiteLog.suiteFailLine "s"] ∧
    ((TestSuite.init "s" ConfigSource.missing).run "prog" true false envPass).1.status
      = true ∧
    ((TestSuite.init "s" ConfigSource.missing).run "prog" true false envPass).2 =
      [SuiteLog.suitePassLine "s"] :=
  ⟨rfl, rfl, rfl, rfl⟩

/-- Claim C2 (code bug, evaluated at the failing input): when the second test
entry lacks `input`, the test declared before it IS constructed and kept in
`self.tests`, the suite's status stays `True`, and `run` executes that test
and emits a PASS summary — the partial test list is neither discarded nor
does the suite report fail, contrary to the claim. -/
theorem missing_input_partial_tests_run :
    (TestSuite.init "s" cfgPartial).tests = [mkTestCase "s" "t1" "a.txt" []] ∧
    (TestSuite.init "s" cfgPartial).status = true ∧
    (TestSuite.init "s" cfgPartial).configLogs =
      [SuiteLog.errorMsg (invalidTestcaseMsg "s" "t2"), SuiteLog.suiteFailLine "s"] ∧
    ((TestSuite.init "s" cfgPartial).run "prog" true false envPass).1.tests =
      [mkTestCase "s" "t1" "a.txt" []] ∧
    ((TestSuite.init "s" cfgPartial).run "prog" true false envPass).1.status = true ∧
    ((TestSuite.init "s" cfgPartial).run "prog" true false envPass).2 =
      [SuiteLog.suitePassLine "s"] := by
  refine ⟨rfl, rfl, rfl, ?_, ?_, ?_⟩ <;> decide

/-- Claim C4 counterexample: a suite configured successfully from a valid
configuration with zero test entries has aggregate status `true` (and a PASS
summary) after `run`, not fail as the claim's zero-test clause states. -/
theorem zero_test_suite_passes_cex :
    ((TestSuite.init "s" (ConfigSource.present false [] [])).run
        "prog" true false envPass).1.status = true ∧
    ((TestSuite.init "s" (ConfigSource.present false [] [])).run
        "prog" true false envPass).2 = [SuiteLog.suitePassLine "s"] :=
  ⟨rfl, rfl⟩

/-- Claim C4 (amended): for every suite run against an existing target
program while its status is true, the final aggregate status equals the
logical AND of the statuses of its executed test cases, which are exactly
its tests executed strictly in loader order; a suite with zero tests gets
the empty conjunction, i.e. aggregate status pass. -/
theorem suite_status_and_of_tests (ts : TestSuite) (program : String) (copyback : Bool)
    (env : Nat → ProcResult × List String) (h : ts.status = true) :
    ((ts.run program true copyback env).1.status =
      (ts.run program true copyback env).1.tests.all TestCase.status) ∧
    (∀ j : Nat, ((ts.run program true copyback env).1.tests[j]?) =
      (ts.tests[j]?).map
        (fun tc => (tc.run program copyback (env j).1 (env j).2).tc)) := by
  constructor
  · simp [TestSuite.run, h, runTests_fst_eq]
  · intro j
    simp [TestSuite.run, h, runTests_getElem2]

/-- Witness for the amended C4 at a concrete one-test suite. -/
theorem suite_status_and_of_tests_witness :
    ((TestSuite.init "s" cfgOne).run "prog" true false envPass).1.status =
      ((TestSuite.init "s" cfgOne).run "prog" true false envPass).1.tests.all
        TestCase.status :=
  (suite_status_and_of_tests (TestSuite.init "s" cfgOne) "prog" false envPass rfl).1

/-- Claim C10: across the test loop of `TestSuite.run` the running suite
status is monotonically non-increasing — once the status is false after some
prefix of the tests, it is false after every longer prefix, so a later
passing test never resets it to true. -/
theorem suite_status_monotone (program : String) (copyback : Bool)
    (env : Nat → ProcResult × List String) (tests : List TestCase) (s : Bool)
    (j k : Nat) (hjk : j ≤ k)
    (hfail : (runTests program copyback env (tests.take j) 0 s).1 = false) :
    (runTests program copyback env (tests.take k) 0 s).1 = false := by
  have hk : k = j + (k - j) := by omega
  rw [hk, List.take_add, runTests_append_fst, hfail, runTests_fst_eq]
  simp

/-- Witness for C10: a failure at the first of two tests keeps the status
false after both. -/
theorem suite_status_monotone_witness :
    (runTests "prog" false envFailFirst ([tcA, tcA].take 2) 0 true).1 = false :=
  suite_status_monotone "prog" false envFailFirst [tcA, tcA] true 1 2 (by decide)
    (by decide)
